import Mathlib

/-!
Verification of the WhaleScope Electron main-process orchestration layer
(src/unnamed/part_001). That file contains the preload script and two
variants of the main process: variant 1 (lines 68-455) and variant 2
(lines 456-687). Handlers and helpers are embedded for both variants where
they differ. External collaborators (the spawned child process, the save
dialog, the filesystem, the fetch call) enter the embedding as explicit
inputs or as a small filesystem state.
-/

namespace WhaleScope

/-! ## JavaScript string trimming (String.prototype.trim), used by
`runPythonScript` (resolve(stdout.trim())) and by the export handlers. -/

/-- Whitespace characters removed by the JavaScript trim (ASCII subset). -/
def isWS (c : Char) : Bool :=
  c == ' ' || c == '\t' || c == '\n' || c == '\r' || c == '\x0b' || c == '\x0c'

/-- Remove leading whitespace from a character list. -/
def trimLeft (l : List Char) : List Char := l.dropWhile isWS

/-- Remove trailing whitespace from a character list. -/
def trimRight (l : List Char) : List Char := (l.reverse.dropWhile isWS).reverse

/-- JavaScript s.trim() on character lists: drop whitespace at both ends. -/
def jsTrim (l : List Char) : List Char := trimLeft (trimRight l)

/-- JavaScript s.trim() on strings. -/
def jsTrimStr (s : String) : String := ⟨jsTrim s.data⟩

/-- A string has no leading and no trailing whitespace. -/
def noEdgeWS (s : String) : Bool :=
  (match s.data.head? with | some c => !(isWS c) | none => true) &&
  (match s.data.getLast? with | some c => !(isWS c) | none => true)

/-! ## Promise/event semantics of `runPythonScript`
(part_001 lines 95-130, and identically lines 494-518).

The function spawns a child and registers exactly three listeners:
`proc.stdout.on("data", ...)`, `proc.stderr.on("data", ...)` and
`proc.on("close", ...)`. No listener is registered for the process
`error` event (emitted when the spawn itself fails), so that event can
never settle the promise. The child behaviour is an event trace. -/

/-- Events a spawned child process can deliver to the registered callbacks.
`spawnError` is the Node `error` event (spawn failure such as ENOENT). -/
inductive PEvent where
  | outData (s : String)
  | errData (s : String)
  | close (code : Int)
  | spawnError (msg : String)
deriving DecidableEq, Repr

/-- State of the promise returned by `runPythonScript`: still pending with
the accumulated stdout/stderr buffers, or settled. -/
inductive PState where
  | pending (stdout stderr : String)
  | resolved (value : String)
  | rejected (msg : String)
deriving DecidableEq, Repr

/-- The fallback rejection message built when stderr is empty:
new Error(stderr || Python exited with code N). -/
def pyExitMsg (code : Int) : String := "Python exited with code " ++ toString code

/-- One event step of the registered callbacks (lines 119-128 / 510-516):
data events append to the buffers; close classifies by exit code
(code === 0 resolves with stdout.trim(), otherwise rejects with stderr
falling back to the generic message when stderr is the empty string);
the spawn `error` event has no registered listener and changes nothing;
a settled promise ignores all further events. -/
def step : PState → PEvent → PState
  | .pending o e, .outData s => .pending (o ++ s) e
  | .pending o e, .errData s => .pending o (e ++ s)
  | .pending o e, .close code =>
      if code = 0 then .resolved (jsTrimStr o)
      else .rejected (if e = "" then pyExitMsg code else e)
  | .pending o e, .spawnError _ => .pending o e
  | st, _ => st

/-- Run the promise of one `runPythonScript` invocation over a trace of
child-process events, starting from empty buffers. -/
def runEvents (evs : List PEvent) : PState := evs.foldl step (.pending "" "")

/-! ## Path resolution (Environment Resolver)

Paths are modelled as lists of segments (the pieces between slashes).
`normSegs` is the normalization performed by path.join on an absolute
base: `.` and empty segments vanish, `..` pops the previous segment
(clamping at the root). -/

/-- One step of path normalization. -/
def normStep (acc : List String) (s : String) : List String :=
  if s = "" ∨ s = "." then acc
  else if s = ".." then acc.dropLast
  else acc ++ [s]

/-- Normalize a segment list the way path.join resolves an absolute path. -/
def normSegs (l : List String) : List String := l.foldl normStep []

/-- path.basename on a segment list: the last non-empty segment. -/
def jsBasename (segs : List String) : String :=
  (segs.filter (fun s => s != "")).getLastD ""

/-- Variant 1, packaged branch of `runPythonScript` (lines 101-107):
path.join(process.resourcesPath, "python/whalescope_scripts",
path.basename(scriptPath)). -/
def realScriptPath_main1 (resourcesPath : List String) (scriptPath : List String) :
    List String :=
  normSegs (resourcesPath ++ ["python", "whalescope_scripts", jsBasename scriptPath])

/-- Variant 2 `getScriptPath` (lines 485-489):
path.join(projectRoot, "whalescope_scripts", scriptName) — the caller
supplied name is joined without any basename stripping. -/
def getScriptPath (projectRoot : List String) (scriptName : List String) :
    List String :=
  normSegs (projectRoot ++ ["whalescope_scripts"] ++ scriptName)

/-! ## IPC handlers

The observable state is a tiny filesystem (name/content pairs, newest
entry first) plus a count of spawned one-shot workers. The behaviour of
external collaborators is passed in: the save dialog outcome is
`Option String` (none = the user canceled, some dest = the chosen path)
and the child process behaviour is `Except String String`
(.ok rawStdout = the child exited 0 with that accumulated stdout,
.error msg = the promise rejected with that message). A handler returns
the new state and `Except String (Option IpcResponse)`: `.ok` is a value
returned to the GUI process (none models returning undefined) while
`.error` is an exception that escaped the handler and crossed the IPC
boundary. -/

/-- Read a file; the newest entry for a name wins. -/
def fsGet : List (String × String) → String → Option String
  | [], _ => none
  | (k, v) :: t, n => if k = n then some v else fsGet t n

/-- Write a file (overwrites any previous entry for the name). -/
def fsSet (fs : List (String × String)) (n v : String) : List (String × String) :=
  (n, v) :: fs

/-- fs.copyFileSync(src, dst): copies the content if src exists, otherwise
throws ENOENT and leaves the filesystem unchanged. -/
def copyFileSync (fs : List (String × String)) (src dst : String) :
    Except String (List (String × String)) :=
  match fsGet fs src with
  | some c => .ok (fsSet fs dst c)
  | none => .error ("ENOENT: no such file or directory, copyfile " ++ src ++ " -> " ++ dst)

/-- Observable orchestration state: files on disk and how many one-shot
worker processes have been spawned. -/
structure World where
  files : List (String × String) := []
  spawnCount : Nat := 0
deriving DecidableEq, Repr

/-- Handler-level view of `runPythonScript`: spawning one child bumps the
spawn count; the settled promise carries stdout.trim() on resolution
(lines 123-124 / 514) or the rejection message. The raw child behaviour
is the oracle argument. -/
def runPythonScript (raw : Except String String) (w : World) :
    World × Except String String :=
  ({ w with spawnCount := w.spawnCount + 1 }, raw.map jsTrimStr)

/-- Shape of the objects the handlers return over IPC; absent keys are
none. -/
structure IpcResponse where
  canceled : Option Bool := none
  success : Option Bool := none
  filePath : Option String := none
  error : Option String := none
  output : Option String := none
deriving DecidableEq, Repr

/-- Argument object of the exportPDF handlers. -/
structure PdfParams where
  sectionId : String
  symbols : String
  startDate : String
  endDate : String
  chartImageBase64 : Option String
deriving DecidableEq, Repr

/-- chartImageBase64.replace of the leading data-url marker
(data:image/png;base64,) with the empty string. -/
def stripDataUrl (s : String) : String :=
  if s.startsWith "data:image/png;base64," then s.drop 22 else s

/-- The temporary chart-image path generated in the allium branch of both
exportPDF handlers (lines 291 and 633):
path.join(app.getPath("temp"), allium_chart_ + Date.now() + .png).
The only varying component is the millisecond timestamp. -/
def alliumChartPath (tempDir : String) (now : Nat) : String :=
  tempDir ++ "/allium_chart_" ++ toString now ++ ".png"

/-- Variant 1 handler for marketbrain:exportCsv (lines 193-224). The
dialog outcome and the child behaviour are oracle inputs. The body after
the cancel check is wrapped in try/catch, so component failures come back
as an error field, never as a thrown exception. -/
def marketbrainExportCsv_main1 (dialog : Option String)
    (raw : Except String String) (w : World) :
    World × Except String (Option IpcResponse) :=
  match dialog with
  | none => (w, .ok (some { canceled := some true }))
  | some dest =>
    let res := runPythonScript raw w
    match res.2 with
    | .error e => (res.1, .ok (some { canceled := some false, error := some e }))
    | .ok out =>
      let tempCsvPath := jsTrimStr out
      match copyFileSync res.1.files tempCsvPath dest with
      | .ok files1 =>
          ({ res.1 with files := files1 },
           .ok (some { canceled := some false, filePath := some dest }))
      | .error e => (res.1, .ok (some { canceled := some false, error := some e }))

/-- Variant 2 handler for marketbrain:exportCsv (lines 566-592). A
canceled dialog returns canceled true (line 573); the body after the
cancel check is wrapped in try/catch; the copy source is
tempCsvPath.trim() applied to the already-trimmed resolved value, and
success answers with success true plus the destination path. -/
def marketbrainExportCsv_main2 (dialog : Option String)
    (raw : Except String String) (w : World) :
    World × Except String (Option IpcResponse) :=
  match dialog with
  | none => (w, .ok (some { canceled := some true }))
  | some dest =>
    let res := runPythonScript raw w
    match res.2 with
    | .error e => (res.1, .ok (some { success := some false, error := some e }))
    | .ok out =>
      match copyFileSync res.1.files (jsTrimStr out) dest with
      | .ok files1 =>
          ({ res.1 with files := files1 },
           .ok (some { success := some true, filePath := some dest }))
      | .error e => (res.1, .ok (some { success := some false, error := some e }))

/-- Variant 2 handler for binance_market:exportCsv (lines 598-614).
No try/catch: a worker rejection or a copy failure escapes the handler. -/
def binanceMarketExportCsv_main2 (dialog : Option String)
    (raw : Except String String) (w : World) :
    World × Except String (Option IpcResponse) :=
  match dialog with
  | none => (w, .ok none)
  | some dest =>
    let res := runPythonScript raw w
    match res.2 with
    | .error e => (res.1, .error e)
    | .ok out =>
      match copyFileSync res.1.files out dest with
      | .ok files1 => ({ res.1 with files := files1 }, .ok (some { success := some true }))
      | .error e => (res.1, .error e)

/-- Variant 1 exportPDF handler (lines 269-342). The whole body sits in a
try/catch; a canceled dialog returns success false with no other field;
the binance_polar section is answered with its own disabled message
before any worker spawn; an unknown section throws and the catch turns it
into the generic unknown-section error. -/
def exportPDF_main1 (p : PdfParams) (dialog : Option String) (tempDir : String)
    (now : Nat) (raw : Except String String) (w : World) :
    World × Except String (Option IpcResponse) :=
  match dialog with
  | none => (w, .ok (some { success := some false }))
  | some dest =>
    if p.sectionId = "allium" then
      let w1 :=
        match p.chartImageBase64 with
        | some img =>
            { w with files := fsSet w.files (alliumChartPath tempDir now) (stripDataUrl img) }
        | none => w
      let res := runPythonScript raw w1
      match res.2 with
      | .error e => (res.1, .ok (some { success := some false, error := some e }))
      | .ok out =>
        match copyFileSync res.1.files (jsTrimStr out) dest with
        | .ok files1 =>
            ({ res.1 with files := files1 },
             .ok (some { success := some true, filePath := some dest }))
        | .error e => (res.1, .ok (some { success := some false, error := some e }))
    else if p.sectionId = "binance_market" then
      let res := runPythonScript raw w
      match res.2 with
      | .error e => (res.1, .ok (some { success := some false, error := some e }))
      | .ok out =>
        match copyFileSync res.1.files (jsTrimStr out) dest with
        | .ok files1 =>
            ({ res.1 with files := files1 },
             .ok (some { success := some true, filePath := some dest }))
        | .error e => (res.1, .ok (some { success := some false, error := some e }))
    else if p.sectionId = "binance_polar" then
      (w, .ok (some { success := some false, error := some "Export is disabled for Binance Polar." }))
    else
      (w, .ok (some { success := some false, error := some ("Unknown PDF export section: " ++ p.sectionId) }))

/-- Variant 2 exportPDF handler (lines 619-657). No try/catch: a canceled
dialog returns undefined; binance_polar and every other unrecognized
section fall into the same generic branch; a worker rejection or copy
failure escapes the handler. -/
def exportPDF_main2 (p : PdfParams) (dialog : Option String) (tempDir : String)
    (now : Nat) (raw : Except String String) (w : World) :
    World × Except String (Option IpcResponse) :=
  match dialog with
  | none => (w, .ok none)
  | some dest =>
    if p.sectionId = "allium" then
      let w1 :=
        match p.chartImageBase64 with
        | some img =>
            { w with files := fsSet w.files (alliumChartPath tempDir now) (stripDataUrl img) }
        | none => w
      let res := runPythonScript raw w1
      match res.2 with
      | .error e => (res.1, .error e)
      | .ok out =>
        match copyFileSync res.1.files out dest with
        | .ok files1 => ({ res.1 with files := files1 }, .ok (some { success := some true }))
        | .error e => (res.1, .error e)
    else if p.sectionId = "binance_market" then
      let res := runPythonScript raw w
      match res.2 with
      | .error e => (res.1, .error e)
      | .ok out =>
        match copyFileSync res.1.files out dest with
        | .ok files1 => ({ res.1 with files := files1 }, .ok (some { success := some true }))
        | .error e => (res.1, .error e)
    else
      (w, .ok (some { success := some false, error := some "Export not supported here." }))

/-! ## Credential store (saveApiKeys / loadApiKeys)

The store models the single api_keys.json file: none = the file does not
exist, some k = it holds the JSON serialization of k. The round trip of
the external JSON library (JSON.parse of JSON.stringify of a plain
object) is embedded by storing the key set as the decoded file content.
Write failures of fs.writeFileSync are an oracle input. -/

/-- A key set: provider/credential pairs in insertion order. -/
abbrev ApiKeySet := List (String × String)

/-- Result object of the credential handlers. -/
structure KeysResult where
  success : Bool
  keys : ApiKeySet := []
  error : Option String := none
deriving DecidableEq, Repr

/-- Variant 1 saveApiKeys handler (lines 134-143): writeFileSync inside
try/catch; on success the file is overwritten with the serialization of
the argument alone. -/
def saveApiKeys_main1 (keys : ApiKeySet) (store : Option ApiKeySet)
    (writeOutcome : Except String Unit) :
    Option ApiKeySet × Except String KeysResult :=
  match writeOutcome with
  | .ok _ => (some keys, .ok { success := true })
  | .error e => (store, .ok { success := false, error := some e })

/-- Variant 1 loadApiKeys handler (lines 145-157): parse the file when it
exists, otherwise success false with an empty key set. -/
def loadApiKeys_main1 (store : Option ApiKeySet) : Except String KeysResult :=
  match store with
  | some k => .ok { success := true, keys := k }
  | none => .ok { success := false, keys := [] }

/-- Variant 2 saveApiKeys handler (lines 523-526): no try/catch, so a
write failure escapes the handler. -/
def saveApiKeys_main2 (keys : ApiKeySet) (store : Option ApiKeySet)
    (writeOutcome : Except String Unit) :
    Option ApiKeySet × Except String KeysResult :=
  match writeOutcome with
  | .ok _ => (some keys, .ok { success := true })
  | .error e => (store, .error e)

/-- Variant 2 loadApiKeys handler (lines 528-532). -/
def loadApiKeys_main2 (store : Option ApiKeySet) : Except String KeysResult :=
  match store with
  | some k => .ok { success := true, keys := k }
  | none => .ok { success := false, keys := [] }

/-- Variant 1 runPython handler (lines 357-365): try/catch around one
invocation. -/
def runPython_main1 (raw : Except String String) (w : World) :
    World × Except String (Option IpcResponse) :=
  let res := runPythonScript raw w
  match res.2 with
  | .ok out => (res.1, .ok (some { success := some true, output := some out }))
  | .error e => (res.1, .ok (some { success := some false, error := some e }))

/-- Result of the loadData handlers: the fetched JSON payload or an
object with an error message. -/
inductive LoadDataResult where
  | payload (json : String)
  | failure (msg : String)
deriving DecidableEq, Repr

/-- loadData handler (lines 162-188 and identically 539-560): the fetch
outcome is an oracle input; both variants catch a fetch failure. -/
def loadData_main (fetched : Except String String) : Except String LoadDataResult :=
  match fetched with
  | .ok j => .ok (.payload j)
  | .error e => .ok (.failure e)

/-- A handler result stayed on the ok side of the IPC boundary (no thrown
exception reached the GUI process). -/
def settlesOk {α : Type} : Except String α → Bool
  | .ok _ => true
  | .error _ => false

/-! ## Helper lemmas -/

/-- The generic fallback message is never the empty string. -/
theorem pyExitMsg_ne_empty (c : Int) : pyExitMsg c ≠ "" := by
  intro h
  have h2 := congrArg String.length h
  rw [pyExitMsg, String.length_append] at h2
  rw [show ("Python exited with code " : String).length = 24 from rfl] at h2
  rw [show ("" : String).length = 0 from rfl] at h2
  omega

/-- The head of a dropWhile result never satisfies the dropped predicate. -/
theorem dropWhile_head_not (p : Char → Bool) (l : List Char) :
    ∀ c, (l.dropWhile p).head? = some c → p c = false := by
  induction l with
  | nil => intro c h; simp [List.dropWhile] at h
  | cons a t ih =>
    intro c h
    rw [List.dropWhile_cons] at h
    by_cases hp : p a = true
    · rw [if_pos hp] at h; exact ih c h
    · rw [if_neg hp] at h
      simp only [List.head?_cons, Option.some.injEq] at h
      rw [← h]
      exact Bool.eq_false_iff.mpr hp

/-- getLast? over an append whose right part is nonempty. -/
theorem getLast_append_right {α : Type} (l l2 : List α) (h : l2 ≠ []) :
    (l ++ l2).getLast? = l2.getLast? := by
  rw [List.getLast?_append]
  cases hl : l2.getLast? with
  | none => exact absurd (List.getLast?_eq_none_iff.mp hl) h
  | some c => rfl

/-- dropWhile keeps the last element of the list it returns. -/
theorem dropWhile_getLast (p : Char → Bool) (l : List Char) (c : Char)
    (h : (l.dropWhile p).getLast? = some c) : l.getLast? = some c := by
  obtain ⟨t, ht⟩ := List.dropWhile_suffix (l := l) p
  have hne : l.dropWhile p ≠ [] := by
    intro h0; rw [h0] at h; simp at h
  rw [← ht, getLast_append_right _ _ hne]
  exact h

/-- The result of the JavaScript trim has no whitespace at either end. -/
theorem noEdgeWS_jsTrim (s : String) : noEdgeWS (jsTrimStr s) = true := by
  unfold noEdgeWS jsTrimStr
  rw [Bool.and_eq_true]
  constructor
  · cases hh : (jsTrim s.data).head? with
    | none => simp only [hh]
    | some c =>
      have hc : isWS c = false := by
        apply dropWhile_head_not isWS (trimRight s.data) c
        unfold jsTrim trimLeft at hh
        exact hh
      simp only [hh, hc, Bool.not_false]
  · cases hh : (jsTrim s.data).getLast? with
    | none => simp only [hh]
    | some c =>
      have h2 : (trimRight s.data).getLast? = some c := by
        apply dropWhile_getLast isWS (trimRight s.data) c
        unfold jsTrim trimLeft at hh
        exact hh
      unfold trimRight at h2
      rw [List.getLast?_reverse] at h2
      have hc : isWS c = false := dropWhile_head_not isWS s.data.reverse c h2
      simp only [hh, hc, Bool.not_false]

/-- Trailing whitespace is removed by trimRight. -/
theorem trimRight_append_ws (l : List Char) (c : Char) (h : isWS c = true) :
    trimRight (l ++ [c]) = trimRight l := by
  unfold trimRight
  rw [List.reverse_append]
  simp [List.dropWhile_cons, h]

/-- Trimming an output consisting of one line plus the final newline gives
the trimmed line. -/
theorem jsTrimStr_append_newline (s : String) : jsTrimStr (s ++ "\n") = jsTrimStr s := by
  unfold jsTrimStr jsTrim
  rw [String.data_append s "\n"]
  rw [show ("\n" : String).data = ['\n'] from rfl]
  rw [trimRight_append_ws s.data '\n' (by decide)]

/-- Path normalization appends segments that are real names untouched. -/
theorem foldl_normStep_clean :
    ∀ (l acc : List String), (∀ s ∈ l, s ≠ "" ∧ s ≠ "." ∧ s ≠ "..") →
      l.foldl normStep acc = acc ++ l := by
  intro l
  induction l with
  | nil => intro acc _; simp
  | cons a t ih =>
    intro acc h
    obtain ⟨h1, h2, h3⟩ := h a (by simp)
    have ht : ∀ s ∈ t, s ≠ "" ∧ s ≠ "." ∧ s ≠ ".." :=
      fun s hs => h s (List.mem_cons_of_mem _ hs)
    have hstep : normStep acc a = acc ++ [a] := by
      unfold normStep
      rw [if_neg (fun hor => hor.elim h1 h2), if_neg h3]
    rw [List.foldl_cons, hstep, ih (acc ++ [a]) ht]
    simp

/-- The dedicated binance_polar message differs from the generic message
used for every unknown section. -/
theorem polarMsg_ne_unknownMsg (s : String) :
    ("Export is disabled for Binance Polar." : String)
      ≠ "Unknown PDF export section: " ++ s := by
  intro h
  have h2 : ("Export is disabled for Binance Polar." : String).data.head?
      = (("Unknown PDF export section: " ++ s : String)).data.head? := by rw [h]
  rw [String.data_append "Unknown PDF export section: " s] at h2
  rw [show ("Export is disabled for Binance Polar." : String).data
      = 'E' :: ("xport is disabled for Binance Polar." : String).data from rfl] at h2
  rw [show ("Unknown PDF export section: " : String).data
      = 'U' :: ("nknown PDF export section: " : String).data from rfl] at h2
  simp at h2

/-! ## Claim theorems -/

/-- Claim C1: when the child delivers its close event, exit code 0 resolves
the promise with the accumulated stdout trimmed of surrounding whitespace,
and any nonzero code rejects it with the accumulated stderr, or with the
generic fallback naming the exit code when stderr is empty; in both
nonzero cases the rejection message is non-empty. -/
theorem runPythonScript_exit_classification (evs : List PEvent) (o e : String) (c : Int)
    (h : runEvents evs = .pending o e) :
    (c = 0 → runEvents (evs ++ [PEvent.close c]) = .resolved (jsTrimStr o)) ∧
    (c ≠ 0 → runEvents (evs ++ [PEvent.close c])
          = .rejected (if e = "" then pyExitMsg c else e)
        ∧ (if e = "" then pyExitMsg c else e) ≠ "") := by
  unfold runEvents at h ⊢
  have hrun : (evs ++ [PEvent.close c]).foldl step (PState.pending "" "")
      = step (PState.pending o e) (PEvent.close c) := by
    rw [List.foldl_append, h]
    rfl
  constructor
  · intro h0
    rw [hrun]
    simp only [step]
    rw [if_pos h0]
  · intro hne
    refine ⟨?_, ?_⟩
    · rw [hrun]
      simp only [step]
      rw [if_neg hne]
    · by_cases he : e = ""
      · rw [if_pos he]; exact pyExitMsg_ne_empty c
      · rw [if_neg he]; exact he

/-- Witness for C1: a child that wrote nothing to stderr and exited 3 is
rejected with the non-empty fallback message. -/
theorem runPythonScript_exit_classification_witness :
    runEvents [PEvent.errData "", PEvent.close 3]
        = PState.rejected "Python exited with code 3" ∧
    ("Python exited with code 3" : String) ≠ "" := by
  have h := (runPythonScript_exit_classification [PEvent.errData ""] "" "" 3
    (by decide)).2 (by decide)
  constructor
  · have h1 := h.1
    rw [show (if ("" : String) = "" then pyExitMsg 3 else "")
        = "Python exited with code 3" from by decide] at h1
    exact h1
  · decide

/-- Claim C5 (code bug): `runPythonScript` registers no listener for the
spawn `error` event, so a failed spawn (missing interpreter or script,
permission denied) leaves the promise pending forever: it is neither
resolved nor rejected, instead of rejecting with a distinguishable
error. -/
theorem runPythonScript_spawn_error_never_settles (o e m : String) :
    step (PState.pending o e) (PEvent.spawnError m) = PState.pending o e ∧
    runEvents [PEvent.spawnError m] = PState.pending "" "" :=
  ⟨rfl, rfl⟩

/-- Claim C7: when the worker keeps its contract and its whole standard
output is exactly one line (with or without the final newline), the
resolved value is that line trimmed, it carries no whitespace at either
end, and the path a CSV export hands to the file copy is the trimmed
value, so no surrounding whitespace from the worker output reaches the
copy. -/
theorem invocation_stdout_is_trimmed_line (evs : List PEvent) (o e line : String)
    (h1 : runEvents evs = .pending o e)
    (h2 : o = line ++ "\n" ∨ o = line) :
    runEvents (evs ++ [PEvent.close 0]) = .resolved (jsTrimStr line) ∧
    noEdgeWS (jsTrimStr line) = true ∧
    (∀ raw w dest c, fsGet w.files (jsTrimStr (jsTrimStr raw)) = some c →
      (marketbrainExportCsv_main1 (some dest) (.ok raw) w).1.files
          = fsSet w.files dest c ∧
      noEdgeWS (jsTrimStr (jsTrimStr raw)) = true) := by
  refine ⟨?_, noEdgeWS_jsTrim line, ?_⟩
  · unfold runEvents at h1 ⊢
    rw [List.foldl_append, h1]
    show step (PState.pending o e) (PEvent.close 0) = _
    simp only [step]
    rw [if_pos trivial]
    rcases h2 with h2 | h2
    · rw [h2]
      exact congrArg PState.resolved
        (jsTrimStr_append_newline line)
    · rw [h2]
  · intro raw w dest c hc
    refine ⟨?_, noEdgeWS_jsTrim _⟩
    simp only [marketbrainExportCsv_main1, runPythonScript, Except.map, copyFileSync, hc]

/-- Witness for C7: a worker that emits exactly the artifact path plus a
newline resolves to the bare path. -/
theorem invocation_stdout_is_trimmed_line_witness :
    runEvents [PEvent.outData "/tmp/out.csv\n", PEvent.close 0]
        = PState.resolved "/tmp/out.csv" ∧
    noEdgeWS "/tmp/out.csv" = true := by
  have h := invocation_stdout_is_trimmed_line [PEvent.outData "/tmp/out.csv\n"]
    "/tmp/out.csv\n" "" "/tmp/out.csv" (by decide) (Or.inl (by decide))
  refine ⟨?_, by decide⟩
  have h1 := h.1
  rw [show jsTrimStr "/tmp/out.csv" = "/tmp/out.csv" from by decide] at h1
  exact h1

/-- Claim C2 counterexample: in the second main variant the exportPDF
handler has no try/catch, so a worker rejection escapes the handler and
crosses the IPC boundary as a thrown exception. -/
theorem exportPDF_main2_throws_across_ipc :
    (exportPDF_main2 ⟨"allium", "BTC", "2025-09-01", "2025-09-30", none⟩
        (some "/tmp/out.pdf") "/tmp" 0 (.error "Traceback: boom") ⟨[], 0⟩).2
      = .error "Traceback: boom" := rfl

/-- Claim C2 amended: the handlers of the first main variant catch every
component failure (worker rejection, copy failure, write failure, fetch
failure) and return a structured value, while in the second variant the
export handlers and saveApiKeys propagate component failures across the
IPC boundary. -/
theorem handlers_main1_never_throw (dialog : Option String)
    (raw : Except String String) (w : World) (p : PdfParams) (tempDir : String)
    (now : Nat) (keys : ApiKeySet) (store : Option ApiKeySet)
    (fetched : Except String String) (wmsg : String) :
    settlesOk (marketbrainExportCsv_main1 dialog raw w).2 = true ∧
    settlesOk (exportPDF_main1 p dialog tempDir now raw w).2 = true ∧
    settlesOk (saveApiKeys_main1 keys store (.error wmsg)).2 = true ∧
    settlesOk (saveApiKeys_main1 keys store (.ok ())).2 = true ∧
    settlesOk (loadApiKeys_main1 store) = true ∧
    settlesOk (runPython_main1 raw w).2 = true ∧
    settlesOk (loadData_main fetched) = true ∧
    (∀ m dest sym sd ed,
      (exportPDF_main2 ⟨"allium", sym, sd, ed, none⟩ (some dest) tempDir now
          (.error m) w).2 = .error m ∧
      (binanceMarketExportCsv_main2 (some dest) (.error m) w).2 = .error m ∧
      (saveApiKeys_main2 keys store (.error m)).2 = .error m) := by
  refine ⟨?_, ?_, ?_, ?_, ?_, ?_, ?_, ?_⟩
  · rcases dialog with _ | dest
    · rfl
    · rcases raw with m | o
      · rfl
      · simp only [marketbrainExportCsv_main1, runPythonScript, Except.map]
        cases copyFileSync w.files (jsTrimStr (jsTrimStr o)) dest <;> rfl
  · rcases dialog with _ | dest
    · rfl
    · simp only [exportPDF_main1]
      by_cases hA : p.sectionId = "allium"
      · rw [if_pos hA]
        rcases p.chartImageBase64 with _ | img <;>
          rcases raw with m | o <;>
            simp only [runPythonScript, Except.map] <;>
              first
                | rfl
                | (cases copyFileSync w.files (jsTrimStr (jsTrimStr o)) dest <;> rfl)
                | (cases copyFileSync
                    (fsSet w.files (alliumChartPath tempDir now) (stripDataUrl img))
                    (jsTrimStr (jsTrimStr o)) dest <;> rfl)
      · rw [if_neg hA]
        by_cases hB : p.sectionId = "binance_market"
        · rw [if_pos hB]
          rcases raw with m | o
          · rfl
          · simp only [runPythonScript, Except.map]
            cases copyFileSync w.files (jsTrimStr (jsTrimStr o)) dest <;> rfl
        · rw [if_neg hB]
          by_cases hC : p.sectionId = "binance_polar"
          · rw [if_pos hC]; rfl
          · rw [if_neg hC]; rfl
  · rfl
  · rfl
  · rcases store with _ | k <;> rfl
  · rcases raw with m | o <;> rfl
  · rcases fetched with m | j <;> rfl
  · intro m dest sym sd ed
    exact ⟨rfl, rfl, rfl⟩

/-- Claim C3 counterexample: cancelling the destination dialog on a PDF
export does not produce a result of the shape cancelled-true: the first
variant answers success false with no canceled key at all, the second
variant returns undefined. -/
theorem exportPDF_cancel_result_shape :
    (exportPDF_main1 ⟨"allium", "BTC", "2025-09-01", "2025-09-30", none⟩ none "/tmp" 0
        (.ok "x") ⟨[], 0⟩).2 = .ok (some { success := some false }) ∧
    (({ success := some false } : IpcResponse)).canceled = none ∧
    (exportPDF_main2 ⟨"allium", "BTC", "2025-09-01", "2025-09-30", none⟩ none "/tmp" 0
        (.ok "x") ⟨[], 0⟩).2 = .ok none :=
  ⟨rfl, rfl, rfl⟩

/-- Claim C3 amended: when the user cancels the destination dialog, every
export handler returns immediately with its own early value — canceled
true for the marketbrain CSV handlers of both variants, success false
for the variant-1 PDF handler, undefined for the variant-2
binance_market CSV and PDF handlers — and the state is untouched: no
worker process is spawned and no temporary file is created. -/
theorem cancel_returns_before_any_effect (raw : Except String String) (w : World)
    (p : PdfParams) (tempDir : String) (now : Nat) :
    marketbrainExportCsv_main1 none raw w = (w, .ok (some { canceled := some true })) ∧
    marketbrainExportCsv_main2 none raw w = (w, .ok (some { canceled := some true })) ∧
    binanceMarketExportCsv_main2 none raw w = (w, .ok none) ∧
    exportPDF_main1 p none tempDir now raw w = (w, .ok (some { success := some false })) ∧
    exportPDF_main2 p none tempDir now raw w = (w, .ok none) :=
  ⟨rfl, rfl, rfl, rfl, rfl⟩

/-- Claim C6 counterexample: in the second main variant a PDF export for
binance_polar is answered with exactly the same generic message as any
unknown section, not with a message specific to the disabled section. -/
theorem binance_polar_pdf_message_not_distinct :
    (exportPDF_main2 ⟨"binance_polar", "BTC", "2025-09-01", "2025-09-30", none⟩
        (some "/tmp/r.pdf") "/tmp" 0 (.ok "p") ⟨[], 0⟩).2
      = .ok (some { success := some false, error := some "Export not supported here." }) ∧
    (exportPDF_main2 ⟨"some_unknown_section", "BTC", "2025-09-01", "2025-09-30", none⟩
        (some "/tmp/r.pdf") "/tmp" 0 (.ok "p") ⟨[], 0⟩).2
      = .ok (some { success := some false, error := some "Export not supported here." }) :=
  ⟨rfl, rfl⟩

/-- Claim C6 amended: a binance_polar PDF request spawns no worker in
either variant and fails immediately; the first variant answers with the
dedicated disabled-for-Binance-Polar message, which differs from the
generic unknown-section message, while the second variant answers with
its generic not-supported message. -/
theorem binance_polar_pdf_disabled (sym sd ed : String) (ci : Option String)
    (dest tempDir : String) (now : Nat) (raw : Except String String) (w : World) :
    exportPDF_main1 ⟨"binance_polar", sym, sd, ed, ci⟩ (some dest) tempDir now raw w
      = (w, .ok (some { success := some false, error := some "Export is disabled for Binance Polar." })) ∧
    exportPDF_main2 ⟨"binance_polar", sym, sd, ed, ci⟩ (some dest) tempDir now raw w
      = (w, .ok (some { success := some false, error := some "Export not supported here." })) ∧
    (∀ s, ("Export is disabled for Binance Polar." : String)
        ≠ "Unknown PDF export section: " ++ s) := by
  refine ⟨?_, ?_, polarMsg_ne_unknownMsg⟩
  · simp [exportPDF_main1]
  · simp [exportPDF_main2]

/-- Claim C8 counterexample: two export jobs whose chart images are
written at the same millisecond tick compute the same temporary filename
(the only varying component is the timestamp itself), and the second
write overwrites the first job's chart image. -/
theorem chart_same_tick_collision :
    alliumChartPath "/tmp" 999 = "/tmp/allium_chart_999.png" ∧
    (exportPDF_main1 ⟨"allium", "BTC", "2025-09-01", "2025-09-30", some "AAA"⟩
        (some "/u/a.pdf") "/tmp" 999 (.error "e1") ⟨[], 0⟩).1.files
      = [("/tmp/allium_chart_999.png", "AAA")] ∧
    (exportPDF_main1 ⟨"allium", "ETH", "2025-09-01", "2025-09-30", some "BBB"⟩
        (some "/u/b.pdf") "/tmp" 999 (.error "e2")
        (exportPDF_main1 ⟨"allium", "BTC", "2025-09-01", "2025-09-30", some "AAA"⟩
          (some "/u/a.pdf") "/tmp" 999 (.error "e1") ⟨[], 0⟩).1).1.files
      = [("/tmp/allium_chart_999.png", "BBB"), ("/tmp/allium_chart_999.png", "AAA")] ∧
    fsGet [("/tmp/allium_chart_999.png", "BBB"), ("/tmp/allium_chart_999.png", "AAA")]
        "/tmp/allium_chart_999.png" = some "BBB" := by
  refine ⟨by decide, by decide, by decide, by decide⟩

/-- Claim C8 amended: the generated chart filename embeds only the
millisecond timestamp, with no further disambiguating component: two
jobs whose filenames are generated within the same millisecond tick
receive the identical name, and the later job's chart write overwrites
the earlier job's chart image. -/
theorem chart_filename_same_tick_overwrite (tempDir : String) (now : Nat)
    (img1 img2 m1 m2 sym1 sym2 sd ed dest1 dest2 : String) (w : World)
    (hne : stripDataUrl img1 ≠ stripDataUrl img2) :
    (exportPDF_main1 ⟨"allium", sym1, sd, ed, some img1⟩ (some dest1) tempDir now
        (.error m1) w).1.files
      = fsSet w.files (alliumChartPath tempDir now) (stripDataUrl img1) ∧
    fsGet ((exportPDF_main1 ⟨"allium", sym2, sd, ed, some img2⟩ (some dest2) tempDir now
        (.error m2)
        (exportPDF_main1 ⟨"allium", sym1, sd, ed, some img1⟩ (some dest1) tempDir now
          (.error m1) w).1).1.files)
        (alliumChartPath tempDir now) = some (stripDataUrl img2) ∧
    some (stripDataUrl img2) ≠ some (stripDataUrl img1) := by
  refine ⟨rfl, ?_, ?_⟩
  · show fsGet (fsSet ((exportPDF_main1 ⟨"allium", sym1, sd, ed, some img1⟩ (some dest1)
          tempDir now (.error m1) w).1.files)
        (alliumChartPath tempDir now) (stripDataUrl img2))
        (alliumChartPath tempDir now) = some (stripDataUrl img2)
    simp [fsGet, fsSet]
  · simp only [ne_eq, Option.some.injEq]
    exact fun h => hne h.symm

/-- Witness for the amended C8 theorem at two concrete jobs in the same
tick with different chart images. -/
theorem chart_filename_same_tick_overwrite_witness :
    stripDataUrl "AAA" ≠ stripDataUrl "BBB" ∧
    fsGet ((exportPDF_main1 ⟨"allium", "ETH", "2025-09-01", "2025-09-30", some "BBB"⟩
        (some "/u/b.pdf") "/tmp" 7 (.error "e2")
        (exportPDF_main1 ⟨"allium", "BTC", "2025-09-01", "2025-09-30", some "AAA"⟩
          (some "/u/a.pdf") "/tmp" 7 (.error "e1") ⟨[], 0⟩).1).1.files)
        (alliumChartPath "/tmp" 7) = some (stripDataUrl "BBB") :=
  ⟨by decide,
   (chart_filename_same_tick_overwrite "/tmp" 7 "AAA" "BBB" "e1" "e2" "BTC" "ETH"
      "2025-09-01" "2025-09-30" "/u/a.pdf" "/u/b.pdf" ⟨[], 0⟩ (by decide)).2.1⟩

/-- Claim C4 counterexample: variant 2 `getScriptPath` joins the caller
supplied script name without stripping directory components, so a name
carrying traversal resolves outside the packaged scripts directory. -/
theorem getScriptPath_traversal_escapes :
    getScriptPath ["Resources", "pyapp"] ["..", "..", "private", "evil.py"]
      = ["Resources", "private", "evil.py"] ∧
    ¬ (["Resources", "pyapp", "whalescope_scripts"] <+:
        getScriptPath ["Resources", "pyapp"] ["..", "..", "private", "evil.py"]) := by
  constructor
  · decide
  · rw [show getScriptPath ["Resources", "pyapp"] ["..", "..", "private", "evil.py"]
        = ["Resources", "private", "evil.py"] from by decide]
    rintro ⟨t, ht⟩
    simp at ht

/-- Claim C4 amended: in Packaged mode, variant-1 script resolution
strips every directory component of the caller-supplied path via
path.basename, so whenever the base filename is a real name (not empty,
not dot, not dot-dot) the resolved path is that base filename directly
inside the packaged scripts directory; variant-2 getScriptPath performs
no such stripping and traversal can escape. -/
theorem packaged_resolution_strips_directories (resourcesPath segs : List String)
    (hroot : ∀ s ∈ resourcesPath, s ≠ "" ∧ s ≠ "." ∧ s ≠ "..")
    (hb1 : jsBasename segs ≠ "") (hb2 : jsBasename segs ≠ ".")
    (hb3 : jsBasename segs ≠ "..") :
    realScriptPath_main1 resourcesPath segs
        = resourcesPath ++ ["python", "whalescope_scripts", jsBasename segs] ∧
    (resourcesPath ++ ["python", "whalescope_scripts"]) <+:
        realScriptPath_main1 resourcesPath segs := by
  have hall : ∀ s ∈ resourcesPath ++ ["python", "whalescope_scripts", jsBasename segs],
      s ≠ "" ∧ s ≠ "." ∧ s ≠ ".." := by
    intro s hs
    rcases List.mem_append.mp hs with h | h
    · exact hroot s h
    · simp only [List.mem_cons, List.mem_singleton] at h
      rcases h with h | h | h
      · subst h; exact ⟨by decide, by decide, by decide⟩
      · subst h; exact ⟨by decide, by decide, by decide⟩
      · simp only [List.not_mem_nil] at h
        rcases h with h | h
        · subst h; exact ⟨hb1, hb2, hb3⟩
        · exact absurd h (by simp)
  have heq : realScriptPath_main1 resourcesPath segs
      = resourcesPath ++ ["python", "whalescope_scripts", jsBasename segs] := by
    unfold realScriptPath_main1 normSegs
    rw [foldl_normStep_clean _ [] hall]
    simp
  refine ⟨heq, ?_⟩
  rw [heq]
  exact ⟨[jsBasename segs], by simp⟩

/-- Witness for the amended C4 theorem: a traversal-carrying caller path
is reduced to its base filename inside the packaged scripts directory. -/
theorem packaged_resolution_strips_directories_witness :
    jsBasename ["..", "..", "private", "evil.py"] = "evil.py" ∧
    realScriptPath_main1 ["Applications", "WhaleScope.app", "Contents", "Resources"]
        ["..", "..", "private", "evil.py"]
      = ["Applications", "WhaleScope.app", "Contents", "Resources", "python",
         "whalescope_scripts", "evil.py"] := by
  have h := (packaged_resolution_strips_directories
    ["Applications", "WhaleScope.app", "Contents", "Resources"]
    ["..", "..", "private", "evil.py"]
    (by decide) (by decide) (by decide) (by decide)).1
  refine ⟨by decide, ?_⟩
  rw [h]
  decide

/-- Claim C9: saving a key set overwrites the credential store wholesale
with the serialization of exactly that key set (independent of any
previous contents), a subsequent load returns the same key set with
success true, and loading with no store file present returns success
false with an empty key set instead of an error. Both main variants
behave identically on these points. -/
theorem apiKeys_wholesale_roundtrip (k : ApiKeySet) (s1 s2 : Option ApiKeySet) :
    (saveApiKeys_main2 k s1 (.ok ())).1 = some k ∧
    (saveApiKeys_main2 k s1 (.ok ())).1 = (saveApiKeys_main2 k s2 (.ok ())).1 ∧
    loadApiKeys_main2 (saveApiKeys_main2 k s1 (.ok ())).1
        = .ok { success := true, keys := k } ∧
    loadApiKeys_main2 none = .ok { success := false, keys := [] } ∧
    (saveApiKeys_main1 k s1 (.ok ())).1 = some k ∧
    loadApiKeys_main1 (saveApiKeys_main1 k s1 (.ok ())).1
        = .ok { success := true, keys := k } ∧
    loadApiKeys_main1 none = .ok { success := false, keys := [] } :=
  ⟨rfl, rfl, rfl, rfl, rfl, rfl, rfl⟩

/-- Claim C10: once a destination has been chosen, the copy to it happens
only after the worker resolves: if the worker rejects, or its trimmed
stdout names an artifact that does not exist, the destination entry of
the filesystem is unchanged (for the CSV handler the whole filesystem is
unchanged; for the PDF handler only the temporary chart image may have
been written, at a path distinct from the destination). -/
theorem failed_export_leaves_destination_untouched
    (dest tempDir : String) (now : Nat) (m raw : String) (w : World) (p : PdfParams)
    (hdest : dest ≠ alliumChartPath tempDir now)
    (hmiss : fsGet w.files (jsTrimStr (jsTrimStr raw)) = none)
    (hsrc : jsTrimStr (jsTrimStr raw) ≠ alliumChartPath tempDir now) :
    (marketbrainExportCsv_main1 (some dest) (.error m) w).1.files = w.files ∧
    (marketbrainExportCsv_main1 (some dest) (.ok raw) w).1.files = w.files ∧
    fsGet ((exportPDF_main1 p (some dest) tempDir now (.error m) w).1.files) dest
        = fsGet w.files dest ∧
    fsGet ((exportPDF_main1 p (some dest) tempDir now (.ok raw) w).1.files) dest
        = fsGet w.files dest := by
  refine ⟨rfl, ?_, ?_, ?_⟩
  · simp only [marketbrainExportCsv_main1, runPythonScript, Except.map, copyFileSync, hmiss]
  · simp only [exportPDF_main1]
    by_cases hA : p.sectionId = "allium"
    · rw [if_pos hA]
      rcases p.chartImageBase64 with _ | img
      · rfl
      · show fsGet (fsSet w.files (alliumChartPath tempDir now) (stripDataUrl img)) dest
            = fsGet w.files dest
        simp only [fsGet, fsSet]
        rw [if_neg (fun h => hdest h.symm)]
    · rw [if_neg hA]
      by_cases hB : p.sectionId = "binance_market"
      · rw [if_pos hB]; rfl
      · rw [if_neg hB]
        by_cases hC : p.sectionId = "binance_polar"
        · rw [if_pos hC]
        · rw [if_neg hC]
  · simp only [exportPDF_main1]
    by_cases hA : p.sectionId = "allium"
    · rw [if_pos hA]
      rcases p.chartImageBase64 with _ | img
      · simp only [runPythonScript, Except.map, copyFileSync, hmiss]
      · have hmiss2 : fsGet (fsSet w.files (alliumChartPath tempDir now) (stripDataUrl img))
            (jsTrimStr (jsTrimStr raw)) = none := by
          simp only [fsGet, fsSet]
          rw [if_neg (fun h => hsrc h.symm)]
          exact hmiss
        simp only [runPythonScript, Except.map, copyFileSync, hmiss2]
        show fsGet (fsSet w.files (alliumChartPath tempDir now) (stripDataUrl img)) dest
            = fsGet w.files dest
        simp only [fsGet, fsSet]
        rw [if_neg (fun h => hdest h.symm)]
    · rw [if_neg hA]
      by_cases hB : p.sectionId = "binance_market"
      · rw [if_pos hB]
        simp only [runPythonScript, Except.map, copyFileSync, hmiss]
      · rw [if_neg hB]
        by_cases hC : p.sectionId = "binance_polar"
        · rw [if_pos hC]
        · rw [if_neg hC]

/-- Witness for C10 at a concrete failing export: a rejected worker and a
missing artifact both leave the chosen destination untouched. -/
theorem failed_export_leaves_destination_untouched_witness :
    ("/home/user/out.csv" : String) ≠ alliumChartPath "/tmp" 7 ∧
    fsGet (([] : List (String × String))) (jsTrimStr (jsTrimStr "  /tmp/missing.csv  ")) = none ∧
    (marketbrainExportCsv_main1 (some "/home/user/out.csv") (.error "boom")
        ⟨[], 0⟩).1.files = [] ∧
    fsGet ((exportPDF_main1 ⟨"allium", "BTC", "2025-09-01", "2025-09-30", some "img"⟩
        (some "/home/user/out.csv") "/tmp" 7 (.ok "  /tmp/missing.csv  ") ⟨[], 0⟩).1.files)
        "/home/user/out.csv" = fsGet ([] : List (String × String)) "/home/user/out.csv" := by
  have h := failed_export_leaves_destination_untouched "/home/user/out.csv" "/tmp" 7
    "boom" "  /tmp/missing.csv  " ⟨[], 0⟩
    ⟨"allium", "BTC", "2025-09-01", "2025-09-30", some "img"⟩
    (by decide) (by decide) (by decide)
  exact ⟨by decide, by decide, h.1, h.2.2.2⟩

end WhaleScope
